import Mathlib

/-!
# Verification of the react-confetti-hook particle burst engine

Shallow embedding of the confetti burst implementation:
* `ConfettiBurst` class (constructor defaults, `fire`, `stop`/`cleanup`,
  `createContainer`, `createParticles`, `scheduleCleanup`, the per-frame
  `update` closure of `animateParticle`, and the three collision handlers
  `handleTopBounce`, `handleBottomBounce`, `handleSideBounce`, plus
  `applyFadeOut`), and
* the `useConfetti` hook (`updateScalingFactors` and the trailing-edge
  200 ms debounce of `fireConfetti`).

JavaScript numbers are modelled as rationals (`ℚ`); `Math.round` is
round-half-toward-positive-infinity; `Math.min`/`Math.abs` are `min`/`|·|`.
Counters that the code only ever sets to 0 and increments by 1 (the per-
particle `bounces` counter) are modelled as `ℕ` and cast to `ℚ` exactly
where the code compares them to config values.
-/

namespace Confetti

/-- JavaScript `Math.round`: rounds half-way cases toward positive
infinity, i.e. `⌊x + 1/2⌋`. -/
def jsRound (x : ℚ) : ℤ := ⌊x + 1/2⌋

/-- The `onStop` callback of a config, modelled by provenance: the
constructor's default is the no-op `() => {}`; any caller-supplied
callback (such as the closure `useConfetti` installs) is `custom`. -/
inductive Callback where
  | noop
  | custom (id : ℕ)
deriving Repr, DecidableEq

/-- `ConfettiOptions`: every field optional (TypeScript `field?:`). -/
structure ConfettiOptions where
  bounceCount : Option ℚ := none
  duration : Option ℚ := none
  particleCount : Option ℚ := none
  randomizeStart : Option Bool := none
  size : Option ℚ := none
  spread : Option ℚ := none
  startVelocity : Option ℚ := none
  onStop : Option Callback := none
deriving Repr, DecidableEq

/-- `ConfettiConfig = Required<ConfettiOptions>`. -/
structure ConfettiConfig where
  bounceCount : ℚ
  duration : ℚ
  particleCount : ℚ
  randomizeStart : Bool
  size : ℚ
  spread : ℚ
  startVelocity : ℚ
  onStop : Callback
deriving Repr, DecidableEq

/-- The `ConfettiBurst` constructor: object-spread merge of the caller's
options over the defaults
`{bounceCount: 2, duration: 2000, onStop: () => {}, particleCount: 150,
randomizeStart: false, size: 12, spread: 70, startVelocity: 25}`. -/
def mkConfig (options : ConfettiOptions) : ConfettiConfig where
  bounceCount := options.bounceCount.getD 2
  duration := options.duration.getD 2000
  particleCount := options.particleCount.getD 150
  randomizeStart := options.randomizeStart.getD false
  size := options.size.getD 12
  spread := options.spread.getD 70
  startVelocity := options.startVelocity.getD 25
  onStop := options.onStop.getD .noop

/-- Options record with every field omitted (`new ConfettiBurst()` /
`fireConfetti()`). -/
def emptyOptions : ConfettiOptions := {}

/-- `applyFadeOut(particle, timeLeft, duration)` as the pure opacity it
computes and returns: `progress = 1 - timeLeft / duration`; if
`progress > 0.7` the opacity is `1 - (progress - 0.7) / 0.3`, otherwise
the particle stays at full opacity `1`. -/
def applyFadeOut (timeLeft duration : ℚ) : ℚ :=
  let progress := 1 - timeLeft / duration
  if progress > 7/10 then 1 - (progress - 7/10) / (3/10) else 1

/-- Result record of the vertical collision handlers
(`{ y, vy, bounces, isSettling }`). -/
structure BounceResult where
  y : ℚ
  vy : ℚ
  bounces : ℕ
  isSettling : Bool
deriving Repr, DecidableEq

/-- `handleTopBounce(y, vy, bounces, bounceCount, bounceDamping)`:
if `y ≤ 0 && vy < 0` the particle reflects (`vy = -vy * damping`,
clamped to `y = 0`) and the bounce counter increments; the particle is
settling when the new counter reaches `bounceCount`, in which case the
rebound is further damped to a gentle downward `|newVy * 0.5|`.
Otherwise state passes through with `isSettling = bounces >= bounceCount`. -/
def handleTopBounce (y vy : ℚ) (bounces : ℕ) (bounceCount bounceDamping : ℚ) :
    BounceResult :=
  if y ≤ 0 ∧ vy < 0 then
    let newBounces := bounces + 1
    let newVy := -vy * bounceDamping
    let isSettling : Bool := decide ((newBounces : ℚ) ≥ bounceCount)
    { y := 0
      vy := if isSettling then |newVy * (1/2)| else newVy
      bounces := newBounces
      isSettling := isSettling }
  else
    { y := y, vy := vy, bounces := bounces
      isSettling := decide ((bounces : ℚ) ≥ bounceCount) }

/-- `handleBottomBounce(y, vy, bounces, bounceCount, bounceDamping,
isSettling)`: the bottom edge sits at `surfaceHeight - 20`; a particle
reflects there only while not settling (`vy = -vy * damping`, counter
increments, settling when the counter reaches `bounceCount`). -/
def handleBottomBounce (surfaceHeight y vy : ℚ) (bounces : ℕ)
    (bounceCount bounceDamping : ℚ) (isSettling : Bool) : BounceResult :=
  let viewportBottom := surfaceHeight - 20
  if y ≥ viewportBottom ∧ vy > 0 ∧ isSettling = false then
    let newBounces := bounces + 1
    let newVy := -vy * bounceDamping
    { y := viewportBottom
      vy := newVy
      bounces := newBounces
      isSettling := decide ((newBounces : ℚ) ≥ bounceCount) }
  else
    { y := y, vy := vy, bounces := bounces, isSettling := isSettling }

/-- `handleSideBounce(x, vx)`: left edge at `0`, right edge at
`surfaceWidth` (`window.innerWidth`); on contact while moving outward the
horizontal velocity reflects with damping `0.8` and `x` is clamped to
the edge. -/
def handleSideBounce (surfaceWidth x vx : ℚ) : ℚ × ℚ :=
  if x ≤ 0 ∧ vx < 0 then (0, -vx * (8/10))
  else if x ≥ surfaceWidth ∧ vx > 0 then (surfaceWidth, -vx * (8/10))
  else (x, vx)

/-- Per-particle mutable animation variables of the `update` closure in
`animateParticle` (`x, y, vx, vy, rotation, bounces, isSettling`). -/
structure PState where
  x : ℚ
  y : ℚ
  vx : ℚ
  vy : ℚ
  rot : ℚ
  bounces : ℕ
  isSettling : Bool
deriving Repr, DecidableEq

/-- Per-particle constants fixed at creation in `animateParticle`
(`wind`, `rotationSpeed`, the config's `bounceCount`) together with the
viewport dimensions read by the collision handlers. -/
structure PhysParams where
  surfaceWidth : ℚ
  surfaceHeight : ℚ
  bounceCount : ℚ
  wind : ℚ
  rotationSpeed : ℚ
deriving Repr, DecidableEq

/-- One pass of the `update` closure while `timeLeft > 0` (the expired
branch is modelled at burst level by `particleFrame`): gravity `0.8`
(settling: `0.8 * 0.3` and air resistance `vx *= 0.98`), wind `* 0.05`,
position integration, then `handleTopBounce`, `handleBottomBounce`,
`handleSideBounce` in that order with `bounceDamping = 0.7`. -/
def updateStep (P : PhysParams) (s : PState) : PState :=
  let vy := if s.isSettling then s.vy + (4/5) * (3/10) else s.vy + 4/5
  let vx := if s.isSettling then s.vx * (98/100) else s.vx + P.wind * (5/100)
  let x := s.x + vx
  let y := s.y + vy
  let rot := s.rot + P.rotationSpeed
  let top := handleTopBounce y vy s.bounces P.bounceCount (7/10)
  let bottom := handleBottomBounce P.surfaceHeight top.y top.vy top.bounces
    P.bounceCount (7/10) top.isSettling
  let side := handleSideBounce P.surfaceWidth x vx
  { x := side.1, y := bottom.y, vx := side.2, vy := bottom.vy, rot := rot
    bounces := bottom.bounces, isSettling := bottom.isSettling }

/-- Number of loop iterations of `createParticles`:
`for (let i = 1; i < particleCount; i++)` runs `⌈particleCount⌉ - 1`
times (and none at all when `particleCount ≤ 1`). -/
def numParticles (particleCount : ℚ) : ℕ := (⌈particleCount⌉ - 1).toNat

/-- Observable state of one `ConfettiBurst` instance: whether the
container div is attached to `document.body`, the `particles` array
(particles as opaque ids), the `animationIds` map (particle id ↦
animation-frame token), the pending `cleanupTimeoutId`, and how many
times the configured `onStop` callback has run. -/
structure BurstState where
  config : ConfettiConfig
  containerAttached : Bool
  particles : List ℕ
  animationIds : List (ℕ × ℕ)
  cleanupTimeoutId : Option ℕ
  onStopCalls : ℕ
deriving Repr, DecidableEq

/-- `new ConfettiBurst(options)`: merges options over the defaults; no
DOM state exists yet and the callback has not run. -/
def initBurst (options : ConfettiOptions) : BurstState where
  config := mkConfig options
  containerAttached := false
  particles := []
  animationIds := []
  cleanupTimeoutId := none
  onStopCalls := 0

/-- `createContainer()`: appends the overlay container to
`document.body`. -/
def createContainer (b : BurstState) : BurstState :=
  { b with containerAttached := true }

/-- `createParticles()`: early-returns when no container exists;
otherwise the loop `for (let i = 1; i < particleCount; i++)` creates one
particle per iteration, pushes it into `this.particles` and
`animateParticle` registers its first animation frame in
`this.animationIds` (frame tokens are opaque; we use the particle id). -/
def createParticles (b : BurstState) : BurstState :=
  if b.containerAttached = false then b
  else
    let ids := List.range (numParticles b.config.particleCount)
    { b with
      particles := b.particles ++ ids
      animationIds := b.animationIds ++ ids.map (fun i => (i, i)) }

/-- `scheduleCleanup()`: clears any existing teardown timer, then
schedules a fresh one for `duration` ms (token opaque). -/
def scheduleCleanup (b : BurstState) : BurstState :=
  { b with cleanupTimeoutId := some 0 }

/-- `fire()`: `createContainer(); createParticles(); scheduleCleanup()`. -/
def fire (b : BurstState) : BurstState :=
  scheduleCleanup (createParticles (createContainer b))

/-- `cleanup()`: clears the teardown timer, removes the container from
`document.body` when attached (`container = null`), empties
`this.particles`, cancels every frame in `animationIds` and clears it,
and finally calls `this.config.onStop()` (which, after the constructor
merge, is always set — so it runs on every `cleanup` call). -/
def cleanup (b : BurstState) : BurstState :=
  { b with
    cleanupTimeoutId := none
    containerAttached := false
    particles := []
    animationIds := []
    onStopCalls := b.onStopCalls + 1 }

/-- `stop()`: just calls `cleanup()`. -/
def stop (b : BurstState) : BurstState := cleanup b

/-- Lookup a particle's frame token in the `animationIds` map. -/
def lookupKey (k : ℕ) : List (ℕ × ℕ) → Option ℕ
  | [] => none
  | e :: rest => if e.1 = k then some e.2 else lookupKey k rest

/-- `Map.delete(k)`: remove the entry for key `k`. -/
def eraseKey (k : ℕ) (m : List (ℕ × ℕ)) : List (ℕ × ℕ) :=
  m.filter (fun e => e.1 ≠ k)

/-- `Map.set(k, v)`: the key's token is replaced (keys stay unique). -/
def setKey (k v : ℕ) : List (ℕ × ℕ) → List (ℕ × ℕ)
  | [] => [(k, v)]
  | e :: rest => if e.1 = k then (k, v) :: rest else e :: setKey k v rest

/-- Effect of one `update` callback of `animateParticle` on the burst
state, for the particle `p` with `timeLeft = endTime - now`: when
`timeLeft ≤ 0` the closure runs `this.animationIds.delete(particle);
return;` (no new frame is requested); otherwise it re-registers the next
frame token for `p` via `this.animationIds.set(particle, frameId)`.
Nothing else of the burst is touched either way. -/
def particleFrame (b : BurstState) (p : ℕ) (timeLeft : ℚ) (freshId : ℕ) :
    BurstState :=
  if timeLeft ≤ 0 then { b with animationIds := eraseKey p b.animationIds }
  else { b with animationIds := setKey p freshId b.animationIds }

/-- Scaled numeric fields returned by `updateScalingFactors`. -/
structure ScalingFactors where
  duration : ℚ
  particleCount : ℚ
  size : ℚ
  spread : ℚ
  startVelocity : ℚ
deriving Repr, DecidableEq

/-- `updateScalingFactors(options)` from the `useConfetti` hook:
destructures the options with defaults
`{duration = 2000, particleCount = 150, spread = 70, size = 15,
startVelocity = 25}` (note `size = 15` here, unlike the constructor's
`12`), computes `avgScale = (w/1200 + h/800)/2`, and replaces each field
`v` by `Math.min(Math.round(v * avgScale), v)`. -/
def updateScalingFactors (surfaceWidth surfaceHeight : ℚ)
    (options : ConfettiOptions) : ScalingFactors :=
  let duration := options.duration.getD 2000
  let particleCount := options.particleCount.getD 150
  let spread := options.spread.getD 70
  let size := options.size.getD 15
  let startVelocity := options.startVelocity.getD 25
  let widthScale := surfaceWidth / 1200
  let heightScale := surfaceHeight / 800
  let avgScale := (widthScale + heightScale) / 2
  { duration := min (jsRound (duration * avgScale) : ℚ) duration
    particleCount := min (jsRound (particleCount * avgScale) : ℚ) particleCount
    size := min (jsRound (size * avgScale) : ℚ) size
    spread := min (jsRound (spread * avgScale) : ℚ) spread
    startVelocity := min (jsRound (startVelocity * avgScale) : ℚ) startVelocity }

/-- The `baseOptions` object the debounced body of `fireConfetti` builds:
the caller's options spread first, then every scaled numeric field and
the hook's own `onStop` closure written over them. -/
def hookBaseOptions (surfaceWidth surfaceHeight : ℚ)
    (options : ConfettiOptions) : ConfettiOptions :=
  let sf := updateScalingFactors surfaceWidth surfaceHeight options
  { options with
    duration := some sf.duration
    particleCount := some sf.particleCount
    size := some sf.size
    spread := some sf.spread
    startVelocity := some sf.startVelocity
    onStop := some (.custom 0) }

/-- The config of the `ConfettiBurst` that `fireConfetti` constructs:
`new ConfettiBurst(baseOptions)`. -/
def hookEffectiveConfig (surfaceWidth surfaceHeight : ℚ)
    (options : ConfettiOptions) : ConfettiConfig :=
  mkConfig (hookBaseOptions surfaceWidth surfaceHeight options)

/-- State of the debounce logic in `fireConfetti`: the pending
`debounceTimerRef` timer as (deadline, captured options), and the bursts
actually started so far (in order), each recorded by its options. -/
structure DebounceState (α : Type) where
  pending : Option (ℚ × α)
  fired : List α
deriving Repr, DecidableEq

/-- One call of `fireConfetti(opts)` at time `t`: any pending timer whose
200 ms deadline already passed has fired its burst before this call runs;
a still-pending timer is cancelled by `clearTimeout`; either way the call
schedules a fresh timer for `t + 200` capturing `opts`. -/
def debounceCall {α : Type} (s : DebounceState α) (t : ℚ) (opts : α) :
    DebounceState α :=
  let fired :=
    match s.pending with
    | some pe => if pe.1 ≤ t then s.fired ++ [pe.2] else s.fired
    | none => s.fired
  { pending := some (t + 200, opts), fired := fired }

/-- Bursts started by a finite sequence of `fireConfetti` calls
(time-ordered), once all scheduled work has run: fold the calls through
the timer semantics, then let the final pending timer (if any) fire. -/
def runDebounce {α : Type} (calls : List (ℚ × α)) : List α :=
  let final := calls.foldl (fun s c => debounceCall s c.1 c.2)
    ⟨none, []⟩
  final.fired ++ (match final.pending with
    | some pe => [pe.2]
    | none => [])

/-! ## Helper lemmas -/

/-- `Math.round` of an integer is itself. -/
theorem jsRound_intCast (n : ℤ) : jsRound (n : ℚ) = n := by
  rw [jsRound, Int.floor_eq_iff]
  constructor
  · linarith
  · have : ((n : ℚ) + 1) = ((n + 1 : ℤ) : ℚ) := by push_cast; ring
    linarith

/-- Deleting a key removes its binding. -/
theorem lookupKey_eraseKey_self (k : ℕ) (m : List (ℕ × ℕ)) :
    lookupKey k (eraseKey k m) = none := by
  induction m with
  | nil => rfl
  | cons e rest ih =>
    by_cases h : e.1 = k
    · simpa [eraseKey, List.filter_cons, h] using ih
    · simpa [eraseKey, List.filter_cons, lookupKey, h] using ih

/-- Deleting one key leaves every other binding untouched. -/
theorem lookupKey_eraseKey_ne (k q : ℕ) (m : List (ℕ × ℕ)) (hq : q ≠ k) :
    lookupKey q (eraseKey k m) = lookupKey q m := by
  induction m with
  | nil => rfl
  | cons e rest ih =>
    by_cases h : e.1 = k
    · have h2 : ¬ e.1 = q := by
        rw [h]
        exact fun hqk => hq hqk.symm
      simpa [eraseKey, List.filter_cons, lookupKey, h, h2, Ne.symm hq] using ih
    · by_cases h2 : e.1 = q
      · simp [eraseKey, List.filter_cons, lookupKey, h, h2, hq]
      · simpa [eraseKey, List.filter_cons, lookupKey, h, h2, hq] using ih

/-! ## C4 — constructor defaults vs the hook's effective config -/

/-- C4 counterexample: fired through the public interface with no
options on a 1200×800 viewport, the burst's size is 15, not the 12 the
claim states, because `updateScalingFactors` destructures with
`size = 15` and its output overrides the constructor default. -/
theorem c4_hook_default_size_not_12 :
    (hookEffectiveConfig 1200 800 emptyOptions).size = 15 ∧
      ¬ (hookEffectiveConfig 1200 800 emptyOptions).size = 12 := by
  have h : (hookEffectiveConfig 1200 800 emptyOptions).size = 15 := by
    show min ((jsRound ((15 : ℚ) * ((1200 / 1200 + 800 / 800) / 2)) : ℤ) : ℚ) 15 = 15
    have : ((15 : ℚ) * ((1200 / 1200 + 800 / 800) / 2)) = ((15 : ℤ) : ℚ) := by norm_num
    rw [this, jsRound_intCast]
    norm_num
  refine ⟨h, ?_⟩
  rw [h]; norm_num

/-- C4 (amended): the `ConfettiBurst` constructor defaults are
bounceCount 2, duration 2000, particleCount 150, randomizeStart false,
size 12, spread 70, startVelocity 25 and a no-op `onStop`; but a burst
fired through `fireConfetti` with no options on a 1200×800 viewport gets
size 15 (the separate default inside `updateScalingFactors`), with the
remaining numeric fields unchanged. -/
theorem c4_defaults_amended :
    mkConfig emptyOptions =
      ⟨2, 2000, 150, false, 12, 70, 25, .noop⟩ ∧
    (hookEffectiveConfig 1200 800 emptyOptions).size = 15 ∧
    (hookEffectiveConfig 1200 800 emptyOptions).duration = 2000 ∧
    (hookEffectiveConfig 1200 800 emptyOptions).particleCount = 150 ∧
    (hookEffectiveConfig 1200 800 emptyOptions).spread = 70 ∧
    (hookEffectiveConfig 1200 800 emptyOptions).startVelocity = 25 ∧
    (hookEffectiveConfig 1200 800 emptyOptions).bounceCount = 2 ∧
    (hookEffectiveConfig 1200 800 emptyOptions).randomizeStart = false := by
  have key : ∀ v : ℚ, (∃ n : ℤ, v = (n : ℚ)) →
      min ((jsRound (v * ((1200 / 1200 + 800 / 800) / 2)) : ℤ) : ℚ) v = v := by
    rintro v ⟨n, rfl⟩
    have : ((n : ℚ) * ((1200 / 1200 + 800 / 800) / 2)) = ((n : ℤ) : ℚ) := by
      ring
    rw [this, jsRound_intCast]
    norm_num
  refine ⟨rfl, ?_, ?_, ?_, ?_, ?_, rfl, rfl⟩
  · exact key 15 ⟨15, by norm_num⟩
  · exact key 2000 ⟨2000, by norm_num⟩
  · exact key 150 ⟨150, by norm_num⟩
  · exact key 70 ⟨70, by norm_num⟩
  · exact key 25 ⟨25, by norm_num⟩

/-! ## C6 — fade-out opacity -/

/-- C6: the fade-out opacity is a pure function of
`progress = 1 - timeLeft/duration`: exactly 1 while `progress ≤ 0.7`,
exactly `1 - (progress - 0.7)/0.3` beyond that, exactly 0 at
`timeLeft = 0`, and monotonically non-increasing as `timeLeft` falls. -/
theorem c6_applyFadeOut_spec (duration : ℚ) (hd : 0 < duration) :
    (∀ timeLeft, 1 - timeLeft / duration ≤ 7/10 →
      applyFadeOut timeLeft duration = 1) ∧
    (∀ timeLeft, 1 - timeLeft / duration > 7/10 →
      applyFadeOut timeLeft duration =
        1 - ((1 - timeLeft / duration) - 7/10) / (3/10)) ∧
    applyFadeOut 0 duration = 0 ∧
    (∀ t1 t2, t1 ≤ t2 →
      applyFadeOut t1 duration ≤ applyFadeOut t2 duration) := by
  refine ⟨?_, ?_, ?_, ?_⟩
  · intro t h
    simp only [applyFadeOut]
    rw [if_neg]
    exact not_lt.mpr h
  · intro t h
    simp only [applyFadeOut]
    rw [if_pos h]
  · simp only [applyFadeOut]
    rw [if_pos (by norm_num)]
    norm_num
  · intro t1 t2 h12
    have hp : 1 - t2 / duration ≤ 1 - t1 / duration := by
      have : t1 / duration ≤ t2 / duration := by gcongr
      linarith
    have e : ∀ z : ℚ, z / (3/10) = (10/3) * z := fun z => by ring
    simp only [applyFadeOut, e]
    split_ifs
    all_goals linarith

/-- C6 witness: with duration 2000 ms the opacity is 1 at half-life and
exactly 0 at end of life. -/
theorem c6_applyFadeOut_spec_witness :
    (0 : ℚ) < 2000 ∧ applyFadeOut 0 2000 = 0 ∧ applyFadeOut 1000 2000 = 1 := by
  have h := c6_applyFadeOut_spec 2000 (by norm_num)
  refine ⟨by norm_num, h.2.2.1, ?_⟩
  exact h.1 1000 (by norm_num)

/-! ## C1 — particle count of a burst -/

/-- C1: the loop `for (let i = 1; i < particleCount; i++)` starts at 1,
so `fire()` with `particleCount = 2` creates exactly one particle (and
one driver entry), not the two the claim requires; `particleCount` of 1
or 0 creates none (an empty burst, with container and teardown timer
still set up). -/
theorem c1_fire_particle_count :
    (fire (initBurst { emptyOptions with particleCount := some 2 })).particles.length = 1 ∧
    (fire (initBurst { emptyOptions with particleCount := some 2 })).animationIds.length = 1 ∧
    (fire (initBurst { emptyOptions with particleCount := some 1 })).particles.length = 0 ∧
    (fire (initBurst { emptyOptions with particleCount := some 0 })).particles.length = 0 ∧
    (fire (initBurst { emptyOptions with particleCount := some 0 })).containerAttached = true ∧
    (fire (initBurst { emptyOptions with particleCount := some 0 })).cleanupTimeoutId = some 0 := by
  have e2 : numParticles 2 = 1 := by
    have : ⌈(2:ℚ)⌉ = (2:ℤ) := by
      rw [show (2:ℚ) = ((2:ℤ):ℚ) by norm_num, Int.ceil_intCast]
    simp [numParticles, this]
  have e1 : numParticles 1 = 0 := by
    have : ⌈(1:ℚ)⌉ = (1:ℤ) := by
      rw [show (1:ℚ) = ((1:ℤ):ℚ) by norm_num, Int.ceil_intCast]
    simp [numParticles, this]
  have e0 : numParticles 0 = 0 := by
    simp [numParticles]
  refine ⟨?_, ?_, ?_, ?_, rfl, rfl⟩ <;>
    simp [fire, initBurst, mkConfig, emptyOptions, createContainer,
      createParticles, scheduleCleanup, e2, e1, e0]

/-! ## C3 — teardown and double stop -/

/-- C3 counterexample: after `fire()` a first `stop()` runs the
completion callback once, and a second `stop()` runs it again
(`cleanup` unconditionally calls `this.config.onStop()`), so the
callback is invoked twice, not exactly once as the claim states. -/
theorem c3_second_stop_reinvokes_callback :
    (stop (stop (fire (initBurst emptyOptions)))).onStopCalls = 2 ∧
      ¬ (stop (stop (fire (initBurst emptyOptions)))).onStopCalls = 1 := by
  constructor
  · rfl
  · intro h
    simp [stop, cleanup] at h

/-- C3 (amended): for every configuration, `fire` then `stop` leaves zero
particles, an empty driver mapping, no teardown timer and a detached
container, with the completion callback having run once; a second `stop`
changes none of that state except that it invokes the completion
callback a second time. -/
theorem c3_teardown_amended (options : ConfettiOptions) :
    (stop (fire (initBurst options))).particles = [] ∧
    (stop (fire (initBurst options))).animationIds = [] ∧
    (stop (fire (initBurst options))).containerAttached = false ∧
    (stop (fire (initBurst options))).cleanupTimeoutId = none ∧
    (stop (fire (initBurst options))).onStopCalls = 1 ∧
    (stop (stop (fire (initBurst options)))).particles = [] ∧
    (stop (stop (fire (initBurst options)))).animationIds = [] ∧
    (stop (stop (fire (initBurst options)))).containerAttached = false ∧
    (stop (stop (fire (initBurst options)))).cleanupTimeoutId = none ∧
    (stop (stop (fire (initBurst options)))).onStopCalls = 2 := by
  refine ⟨rfl, rfl, rfl, rfl, ?_, rfl, rfl, rfl, rfl, ?_⟩ <;>
    simp [stop, cleanup, fire, scheduleCleanup, createParticles,
      createContainer, initBurst]

/-! ## C7 — side bounces -/

/-- C7: a side-edge collision (left edge `x ≤ 0` moving left, or right
edge `x ≥ surfaceWidth` moving right) reflects the horizontal velocity
to `-vx * 0.8` and clamps `x` to that edge; and in the per-frame update
the bounce counter and settling flag of the result come from the
top/bottom handlers alone — `handleSideBounce` never touches them. -/
theorem c7_handleSideBounce_spec (surfaceWidth x vx : ℚ) :
    (x ≤ 0 → vx < 0 → handleSideBounce surfaceWidth x vx = (0, -vx * (8/10))) ∧
    (x ≥ surfaceWidth → vx > 0 →
      handleSideBounce surfaceWidth x vx = (surfaceWidth, -vx * (8/10))) ∧
    (∀ (P : PhysParams) (s : PState),
      (updateStep P s).bounces =
        (handleBottomBounce P.surfaceHeight
          (handleTopBounce
            (s.y + if s.isSettling then s.vy + (4/5) * (3/10) else s.vy + 4/5)
            (if s.isSettling then s.vy + (4/5) * (3/10) else s.vy + 4/5)
            s.bounces P.bounceCount (7/10)).y
          (handleTopBounce
            (s.y + if s.isSettling then s.vy + (4/5) * (3/10) else s.vy + 4/5)
            (if s.isSettling then s.vy + (4/5) * (3/10) else s.vy + 4/5)
            s.bounces P.bounceCount (7/10)).vy
          (handleTopBounce
            (s.y + if s.isSettling then s.vy + (4/5) * (3/10) else s.vy + 4/5)
            (if s.isSettling then s.vy + (4/5) * (3/10) else s.vy + 4/5)
            s.bounces P.bounceCount (7/10)).bounces
          P.bounceCount (7/10)
          (handleTopBounce
            (s.y + if s.isSettling then s.vy + (4/5) * (3/10) else s.vy + 4/5)
            (if s.isSettling then s.vy + (4/5) * (3/10) else s.vy + 4/5)
            s.bounces P.bounceCount (7/10)).isSettling).bounces ∧
      (updateStep P s).isSettling =
        (handleBottomBounce P.surfaceHeight
          (handleTopBounce
            (s.y + if s.isSettling then s.vy + (4/5) * (3/10) else s.vy + 4/5)
            (if s.isSettling then s.vy + (4/5) * (3/10) else s.vy + 4/5)
            s.bounces P.bounceCount (7/10)).y
          (handleTopBounce
            (s.y + if s.isSettling then s.vy + (4/5) * (3/10) else s.vy + 4/5)
            (if s.isSettling then s.vy + (4/5) * (3/10) else s.vy + 4/5)
            s.bounces P.bounceCount (7/10)).vy
          (handleTopBounce
            (s.y + if s.isSettling then s.vy + (4/5) * (3/10) else s.vy + 4/5)
            (if s.isSettling then s.vy + (4/5) * (3/10) else s.vy + 4/5)
            s.bounces P.bounceCount (7/10)).bounces
          P.bounceCount (7/10)
          (handleTopBounce
            (s.y + if s.isSettling then s.vy + (4/5) * (3/10) else s.vy + 4/5)
            (if s.isSettling then s.vy + (4/5) * (3/10) else s.vy + 4/5)
            s.bounces P.bounceCount (7/10)).isSettling).isSettling) := by
  refine ⟨?_, ?_, fun P s => ⟨rfl, rfl⟩⟩
  · intro hx hv
    simp [handleSideBounce, hx, hv]
  · intro hx hv
    have h1 : ¬ (x ≤ 0 ∧ vx < 0) := by
      rintro ⟨-, hv'⟩
      exact absurd hv (not_lt.mpr hv'.le)
    simp [handleSideBounce, h1, hx, hv]

/-- C7 witness: the left edge at `x = -1`, `vx = -2` on a width-100
surface clamps to `(0, 8/5)`. -/
theorem c7_handleSideBounce_spec_witness :
    handleSideBounce 100 (-1) (-2) = (0, 8/5) := by
  have h := (c7_handleSideBounce_spec 100 (-1) (-2)).1
    (by norm_num) (by norm_num)
  rw [h]
  norm_num

/-! ## C9 — expired-particle frame is local -/

/-- C9: when a particle's remaining lifetime is ≤ 0, its frame handler
only deletes that particle's own entry from the driver map: the
container, particle list, teardown timer and callback count are
untouched, the particle's own driver entry is gone, and every other
particle's entry is exactly as before. -/
theorem c9_expired_frame_local (b : BurstState) (p : ℕ) (timeLeft : ℚ)
    (freshId : ℕ) (h : timeLeft ≤ 0) :
    (particleFrame b p timeLeft freshId).animationIds =
        eraseKey p b.animationIds ∧
    (particleFrame b p timeLeft freshId).containerAttached =
        b.containerAttached ∧
    (particleFrame b p timeLeft freshId).particles = b.particles ∧
    (particleFrame b p timeLeft freshId).cleanupTimeoutId =
        b.cleanupTimeoutId ∧
    (particleFrame b p timeLeft freshId).onStopCalls = b.onStopCalls ∧
    (particleFrame b p timeLeft freshId).config = b.config ∧
    lookupKey p (particleFrame b p timeLeft freshId).animationIds = none ∧
    (∀ q, q ≠ p →
      lookupKey q (particleFrame b p timeLeft freshId).animationIds =
        lookupKey q b.animationIds) := by
  have hb : particleFrame b p timeLeft freshId =
      { b with animationIds := eraseKey p b.animationIds } := by
    simp [particleFrame, h]
  refine ⟨by rw [hb], by rw [hb], by rw [hb], by rw [hb], by rw [hb],
    by rw [hb], ?_, ?_⟩
  · rw [hb]
    exact lookupKey_eraseKey_self p b.animationIds
  · intro q hq
    rw [hb]
    exact lookupKey_eraseKey_ne p q b.animationIds hq

/-- C9 witness: a concrete two-particle burst state; the expired frame of
particle 0 deletes only particle 0's driver entry. -/
theorem c9_expired_frame_local_witness :
    ((-1 : ℚ) ≤ 0) ∧
    lookupKey 0 (particleFrame
      ⟨mkConfig emptyOptions, true, [0, 1], [(0, 5), (1, 6)], some 0, 0⟩
      0 (-1) 9).animationIds = none ∧
    lookupKey 1 (particleFrame
      ⟨mkConfig emptyOptions, true, [0, 1], [(0, 5), (1, 6)], some 0, 0⟩
      0 (-1) 9).animationIds = some 6 := by
  have h := c9_expired_frame_local
    ⟨mkConfig emptyOptions, true, [0, 1], [(0, 5), (1, 6)], some 0, 0⟩
    0 (-1) 9 (by norm_num)
  refine ⟨by norm_num, h.2.2.2.2.2.2.1, ?_⟩
  rw [h.2.2.2.2.2.2.2 1 (by norm_num)]
  rfl

/-! ## C5 — responsive scaling -/

/-- `min(round(v * avgScale), v)` on the 1200×800 baseline keeps every
integer value unchanged. -/
theorem scale_baseline_int (n : ℤ) :
    min ((jsRound ((n : ℚ) * ((1200 / 1200 + 800 / 800) / 2)) : ℤ) : ℚ)
      (n : ℚ) = (n : ℚ) := by
  have h : ((n : ℚ) * ((1200 / 1200 + 800 / 800) / 2)) = ((n : ℤ) : ℚ) := by
    ring
  rw [h, jsRound_intCast]
  norm_num

/-- C5 counterexample: on the 1200×800 baseline viewport (avgScale = 1)
the fractional duration 8001/4 = 2000.25 is scaled to
`min(round(2000.25), 2000.25) = 2000`, so a field does change even at
avgScale = 1, contrary to the claim's "every field is unchanged". -/
theorem c5_fractional_shrinks_at_baseline :
    (updateScalingFactors 1200 800
      { emptyOptions with duration := some (8001/4) }).duration = 2000 ∧
    ¬ ((8001 : ℚ)/4 = 2000) := by
  constructor
  · show min ((jsRound ((8001/4 : ℚ) * ((1200 / 1200 + 800 / 800) / 2)) : ℤ) : ℚ)
      (8001/4 : ℚ) = 2000
    have h1 : ((8001/4 : ℚ) * ((1200 / 1200 + 800 / 800) / 2)) = 8001/4 := by
      ring
    have h2 : jsRound (8001/4 : ℚ) = 2000 := by
      rw [jsRound, Int.floor_eq_iff]
      constructor
      · norm_num
      · norm_num
    rw [h1, h2]
    rw [min_eq_left (by norm_num)]
    norm_num
  · norm_num

/-- C5 (amended): each of the five numeric fields is independently
replaced by `min(round(v * avgScale), v)`, so scaling never enlarges any
field for any viewport; and on the 1200×800 baseline every field whose
pre-scaling value is an integer is unchanged (fractional values can
still shrink by the rounding, as `c5_fractional_shrinks_at_baseline`
shows). -/
theorem c5_scaling_amended (surfaceWidth surfaceHeight : ℚ)
    (options : ConfettiOptions) :
    ((updateScalingFactors surfaceWidth surfaceHeight options).duration ≤
        options.duration.getD 2000 ∧
      (updateScalingFactors surfaceWidth surfaceHeight options).particleCount ≤
        options.particleCount.getD 150 ∧
      (updateScalingFactors surfaceWidth surfaceHeight options).size ≤
        options.size.getD 15 ∧
      (updateScalingFactors surfaceWidth surfaceHeight options).spread ≤
        options.spread.getD 70 ∧
      (updateScalingFactors surfaceWidth surfaceHeight options).startVelocity ≤
        options.startVelocity.getD 25) ∧
    ((∀ n : ℤ, options.duration.getD 2000 = (n : ℚ) →
        (updateScalingFactors 1200 800 options).duration =
          options.duration.getD 2000) ∧
      (∀ n : ℤ, options.particleCount.getD 150 = (n : ℚ) →
        (updateScalingFactors 1200 800 options).particleCount =
          options.particleCount.getD 150) ∧
      (∀ n : ℤ, options.size.getD 15 = (n : ℚ) →
        (updateScalingFactors 1200 800 options).size =
          options.size.getD 15) ∧
      (∀ n : ℤ, options.spread.getD 70 = (n : ℚ) →
        (updateScalingFactors 1200 800 options).spread =
          options.spread.getD 70) ∧
      (∀ n : ℤ, options.startVelocity.getD 25 = (n : ℚ) →
        (updateScalingFactors 1200 800 options).startVelocity =
          options.startVelocity.getD 25)) := by
  refine ⟨⟨min_le_right _ _, min_le_right _ _, min_le_right _ _,
    min_le_right _ _, min_le_right _ _⟩, ?_, ?_, ?_, ?_, ?_⟩
  · intro n hn
    show min ((jsRound ((options.duration.getD 2000) *
      ((1200 / 1200 + 800 / 800) / 2)) : ℤ) : ℚ)
      (options.duration.getD 2000) = options.duration.getD 2000
    rw [hn]
    exact scale_baseline_int n
  · intro n hn
    show min ((jsRound ((options.particleCount.getD 150) *
      ((1200 / 1200 + 800 / 800) / 2)) : ℤ) : ℚ)
      (options.particleCount.getD 150) = options.particleCount.getD 150
    rw [hn]
    exact scale_baseline_int n
  · intro n hn
    show min ((jsRound ((options.size.getD 15) *
      ((1200 / 1200 + 800 / 800) / 2)) : ℤ) : ℚ)
      (options.size.getD 15) = options.size.getD 15
    rw [hn]
    exact scale_baseline_int n
  · intro n hn
    show min ((jsRound ((options.spread.getD 70) *
      ((1200 / 1200 + 800 / 800) / 2)) : ℤ) : ℚ)
      (options.spread.getD 70) = options.spread.getD 70
    rw [hn]
    exact scale_baseline_int n
  · intro n hn
    show min ((jsRound ((options.startVelocity.getD 25) *
      ((1200 / 1200 + 800 / 800) / 2)) : ℤ) : ℚ)
      (options.startVelocity.getD 25) = options.startVelocity.getD 25
    rw [hn]
    exact scale_baseline_int n

/-- C5 witness: with no options on a 600×500 viewport the scaled duration
is at most 2000, and on the baseline it is exactly 2000. -/
theorem c5_scaling_amended_witness :
    (updateScalingFactors 600 500 emptyOptions).duration ≤ 2000 ∧
    (updateScalingFactors 1200 800 emptyOptions).duration = 2000 := by
  refine ⟨(c5_scaling_amended 600 500 emptyOptions).1.1, ?_⟩
  exact (c5_scaling_amended 1200 800 emptyOptions).2.1 2000
    (by show (2000 : ℚ) = ((2000 : ℤ) : ℚ); norm_num)

/-! ## C10 — settling flag tracks the bounce counter -/

/-- The top handler's output always satisfies
`isSettling = (bounces ≥ bounceCount)`. -/
theorem handleTopBounce_settling_iff (y vy : ℚ) (bounces : ℕ)
    (bounceCount bounceDamping : ℚ) :
    ((handleTopBounce y vy bounces bounceCount bounceDamping).isSettling = true ↔
      ((handleTopBounce y vy bounces bounceCount bounceDamping).bounces : ℚ) ≥
        bounceCount) := by
  simp only [handleTopBounce]
  split_ifs with h <;> simp

/-- The top handler never decreases the bounce counter. -/
theorem handleTopBounce_bounces_mono (y vy : ℚ) (bounces : ℕ)
    (bounceCount bounceDamping : ℚ) :
    bounces ≤ (handleTopBounce y vy bounces bounceCount bounceDamping).bounces := by
  simp only [handleTopBounce]
  split_ifs with h <;> simp

/-- The bottom handler preserves `isSettling = (bounces ≥ bounceCount)`. -/
theorem handleBottomBounce_settling_iff (surfaceHeight y vy : ℚ) (bounces : ℕ)
    (bounceCount bounceDamping : ℚ) (isSettling : Bool)
    (hin : isSettling = true ↔ (bounces : ℚ) ≥ bounceCount) :
    ((handleBottomBounce surfaceHeight y vy bounces bounceCount bounceDamping
        isSettling).isSettling = true ↔
      ((handleBottomBounce surfaceHeight y vy bounces bounceCount bounceDamping
        isSettling).bounces : ℚ) ≥ bounceCount) := by
  simp only [handleBottomBounce]
  split_ifs with h <;> simp [hin]

/-- The bottom handler never decreases the bounce counter. -/
theorem handleBottomBounce_bounces_mono (surfaceHeight y vy : ℚ) (bounces : ℕ)
    (bounceCount bounceDamping : ℚ) (isSettling : Bool) :
    bounces ≤ (handleBottomBounce surfaceHeight y vy bounces bounceCount
      bounceDamping isSettling).bounces := by
  simp only [handleBottomBounce]
  split_ifs with h <;> simp

/-- C10: after the collision handling of every animation step the
settling flag equals the predicate `bounces ≥ bounceCount`; the bounce
counter never decreases across a step; once the flag is set it stays set
on the next step; and with `bounceCount = 0` every particle is settling
from its very first frame. -/
theorem c10_settling_matches_bounces (P : PhysParams) (s : PState) :
    ((updateStep P s).isSettling = true ↔
      ((updateStep P s).bounces : ℚ) ≥ P.bounceCount) ∧
    s.bounces ≤ (updateStep P s).bounces ∧
    ((updateStep P s).isSettling = true →
      (updateStep P (updateStep P s)).isSettling = true) ∧
    (P.bounceCount = 0 → (updateStep P s).isSettling = true) := by
  have key : ∀ u : PState,
      ((updateStep P u).isSettling = true ↔
        ((updateStep P u).bounces : ℚ) ≥ P.bounceCount) ∧
      u.bounces ≤ (updateStep P u).bounces := by
    intro u
    constructor
    · exact handleBottomBounce_settling_iff _ _ _ _ _ _ _
        (handleTopBounce_settling_iff _ _ _ _ _)
    · exact le_trans (handleTopBounce_bounces_mono _ _ _ _ _)
        (handleBottomBounce_bounces_mono _ _ _ _ _ _ _)
  refine ⟨(key s).1, (key s).2, ?_, ?_⟩
  · intro h1
    have hb1 : ((updateStep P s).bounces : ℚ) ≥ P.bounceCount :=
      (key s).1.mp h1
    have hb2 : ((updateStep P s).bounces : ℚ) ≤
        ((updateStep P (updateStep P s)).bounces : ℚ) := by
      exact_mod_cast (key (updateStep P s)).2
    exact (key (updateStep P s)).1.mpr (le_trans hb1 hb2)
  · intro h0
    refine (key s).1.mpr ?_
    rw [h0]
    exact Nat.cast_nonneg _

/-- C10 witness: with `bounceCount = 0` a particle in mid-air is settling
right after its first frame. -/
theorem c10_settling_matches_bounces_witness :
    (updateStep ⟨1200, 800, 0, 0, 0⟩ ⟨600, 400, 0, -5, 0, 0, false⟩).isSettling =
      true := by
  exact (c10_settling_matches_bounces ⟨1200, 800, 0, 0, 0⟩
    ⟨600, 400, 0, -5, 0, 0, false⟩).2.2.2 rfl

/-! ## C8 — trailing-edge debounce -/

/-- Running the debounce fold from a pending timer that no processed call
lets expire: every consecutive call arrives within 200 ms of the
previous one and the first call arrives before the initial deadline, so
no burst fires during the calls and the final pending timer carries the
last call's options. -/
theorem debounce_foldl_pending {α : Type} (calls : List (ℚ × α)) :
    ∀ (d : ℚ) (o : α) (fired : List α) (c : ℚ × α),
    List.Chain' (fun a b => b.1 < a.1 + 200) calls →
    (∀ c0, calls.head? = some c0 → c0.1 < d) →
    calls.getLast? = some c →
    calls.foldl (fun s cc => debounceCall s cc.1 cc.2) ⟨some (d, o), fired⟩ =
      ⟨some (c.1 + 200, c.2), fired⟩ := by
  induction calls with
  | nil => intro d o fired c _ _ hlast; cases hlast
  | cons hd tl ih =>
    intro d o fired c hchain hhead hlast
    have hstep : debounceCall (⟨some (d, o), fired⟩ : DebounceState α) hd.1 hd.2 =
        ⟨some (hd.1 + 200, hd.2), fired⟩ := by
      have hlt : hd.1 < d := hhead hd rfl
      simp [debounceCall, not_le.mpr hlt]
    rw [List.foldl_cons, hstep]
    cases tl with
    | nil =>
      simp only [List.getLast?_singleton, Option.some.injEq] at hlast
      simp [hlast]
    | cons t ts =>
      have hchain' := List.chain'_cons.mp hchain
      refine ih (hd.1 + 200) hd.2 fired c hchain'.2 ?_ ?_
      · intro c0 hc0
        simp only [List.head?_cons, Option.some.injEq] at hc0
        rw [← hc0]
        exact hchain'.1
      · rw [← hlast]
        exact List.getLast?_cons_cons.symm

/-- C8: any k ≥ 1 `fireConfetti` calls issued in time order inside one
200 ms window produce exactly one actual burst start, and it uses the
last call's options. -/
theorem c8_debounce_single_burst {α : Type} (t0 : ℚ)
    (calls : List (ℚ × α)) (c : ℚ × α)
    (hsorted : List.Chain' (fun a b => a.1 ≤ b.1) calls)
    (hwin : ∀ x ∈ calls, t0 ≤ x.1 ∧ x.1 < t0 + 200)
    (hlast : calls.getLast? = some c) :
    runDebounce calls = [c.2] := by
  have hchain : List.Chain' (fun a b => b.1 < a.1 + 200) calls := by
    rw [List.chain'_iff_get] at hsorted ⊢
    intro i hi
    have ha := hwin (calls.get ⟨i, by omega⟩) (List.get_mem calls i (by omega))
    have hb := hwin (calls.get ⟨i + 1, by omega⟩)
      (List.get_mem calls (i + 1) (by omega))
    calc (calls.get ⟨i + 1, by omega⟩).1 < t0 + 200 := hb.2
      _ ≤ (calls.get ⟨i, by omega⟩).1 + 200 := by linarith [ha.1]
  cases calls with
  | nil => cases hlast
  | cons c0 rest =>
    show (List.foldl (fun s cc => debounceCall s cc.1 cc.2)
      (⟨none, []⟩ : DebounceState α) (c0 :: rest)).fired ++ _ = _
    rw [List.foldl_cons]
    have hfirst : debounceCall (⟨none, []⟩ : DebounceState α) c0.1 c0.2 =
        ⟨some (c0.1 + 200, c0.2), []⟩ := by
      simp [debounceCall]
    rw [hfirst]
    cases rest with
    | nil =>
      simp only [List.getLast?_singleton, Option.some.injEq] at hlast
      simp [hlast]
    | cons t ts =>
      have hchain' := List.chain'_cons.mp hchain
      rw [debounce_foldl_pending (t :: ts) (c0.1 + 200) c0.2 [] c hchain'.2
        (by
          intro x hx
          simp only [List.head?_cons, Option.some.injEq] at hx
          rw [← hx]
          exact hchain'.1)
        (by
          rw [← hlast]
          exact List.getLast?_cons_cons.symm)]
      rfl

/-- C8 witness: three calls at 0 ms, 100 ms and 199 ms collapse to a
single burst carrying the third call's options. -/
theorem c8_debounce_single_burst_witness :
    runDebounce [((0 : ℚ), (10 : ℕ)), (100, 20), (199, 30)] = [30] := by
  refine c8_debounce_single_burst 0 _ (199, 30) ?_ ?_ rfl
  · refine List.chain'_cons.mpr ⟨by norm_num, ?_⟩
    refine List.chain'_cons.mpr ⟨by norm_num, ?_⟩
    exact List.chain'_singleton _
  · intro x hx
    simp only [List.mem_cons, List.not_mem_nil, or_false] at hx
    rcases hx with rfl | rfl | rfl <;> constructor <;> norm_num

/-! ## C2 — the bounce bound is violated by the code -/

/-- C2: a concrete launch state reachable from `createParticles` /
`animateParticle` (viewport 1200×22, `spread = 0` so the particle
starts at `y = surfaceHeight + spread = 22`, launch velocity
`vy = -|velocity| = -6.3`, centred `x = 600` with zero horizontal
velocity, wind and rotation speed, `bounceCount = 1`, duration long
enough for 13 frames) violates the bounce bound: after frame 12 the
particle is settling with `bounces = 1 = bounceCount`, yet frame 13
reflects it off the top edge once more (`handleTopBounce` has no
settling guard) and the counter reaches 2 > bounceCount. -/
theorem c2_bounce_bound_violated :
    ((updateStep ⟨1200, 22, 1, 0, 0⟩)^[12]
      ⟨600, 22, 0, -63/10, 0, 0, false⟩).bounces = 1 ∧
    ((updateStep ⟨1200, 22, 1, 0, 0⟩)^[12]
      ⟨600, 22, 0, -63/10, 0, 0, false⟩).isSettling = true ∧
    ((updateStep ⟨1200, 22, 1, 0, 0⟩)^[13]
      ⟨600, 22, 0, -63/10, 0, 0, false⟩).bounces = 2 := by
  have h1 : updateStep ⟨1200, 22, 1, 0, 0⟩ ⟨600, 22, 0, -63/10, 0, 0, false⟩ =
      ⟨600, 33/2, 0, -11/2, 0, 0, false⟩ := by
    norm_num [updateStep, handleTopBounce, handleBottomBounce, handleSideBounce]
  have h2 : updateStep ⟨1200, 22, 1, 0, 0⟩ ⟨600, 33/2, 0, -11/2, 0, 0, false⟩ =
      ⟨600, 59/5, 0, -47/10, 0, 0, false⟩ := by
    norm_num [updateStep, handleTopBounce, handleBottomBounce, handleSideBounce]
  have h3 : updateStep ⟨1200, 22, 1, 0, 0⟩ ⟨600, 59/5, 0, -47/10, 0, 0, false⟩ =
      ⟨600, 79/10, 0, -39/10, 0, 0, false⟩ := by
    norm_num [updateStep, handleTopBounce, handleBottomBounce, handleSideBounce]
  have h4 : updateStep ⟨1200, 22, 1, 0, 0⟩ ⟨600, 79/10, 0, -39/10, 0, 0, false⟩ =
      ⟨600, 24/5, 0, -31/10, 0, 0, false⟩ := by
    norm_num [updateStep, handleTopBounce, handleBottomBounce, handleSideBounce]
  have h5 : updateStep ⟨1200, 22, 1, 0, 0⟩ ⟨600, 24/5, 0, -31/10, 0, 0, false⟩ =
      ⟨600, 5/2, 0, -23/10, 0, 0, false⟩ := by
    norm_num [updateStep, handleTopBounce, handleBottomBounce, handleSideBounce]
  have h6 : updateStep ⟨1200, 22, 1, 0, 0⟩ ⟨600, 5/2, 0, -23/10, 0, 0, false⟩ =
      ⟨600, 1, 0, -3/2, 0, 0, false⟩ := by
    norm_num [updateStep, handleTopBounce, handleBottomBounce, handleSideBounce]
  have h7 : updateStep ⟨1200, 22, 1, 0, 0⟩ ⟨600, 1, 0, -3/2, 0, 0, false⟩ =
      ⟨600, 3/10, 0, -7/10, 0, 0, false⟩ := by
    norm_num [updateStep, handleTopBounce, handleBottomBounce, handleSideBounce]
  have h8 : updateStep ⟨1200, 22, 1, 0, 0⟩ ⟨600, 3/10, 0, -7/10, 0, 0, false⟩ =
      ⟨600, 2/5, 0, 1/10, 0, 0, false⟩ := by
    norm_num [updateStep, handleTopBounce, handleBottomBounce, handleSideBounce]
  have h9 : updateStep ⟨1200, 22, 1, 0, 0⟩ ⟨600, 2/5, 0, 1/10, 0, 0, false⟩ =
      ⟨600, 13/10, 0, 9/10, 0, 0, false⟩ := by
    norm_num [updateStep, handleTopBounce, handleBottomBounce, handleSideBounce]
  have h10 : updateStep ⟨1200, 22, 1, 0, 0⟩ ⟨600, 13/10, 0, 9/10, 0, 0, false⟩ =
      ⟨600, 2, 0, -119/100, 0, 1, true⟩ := by
    norm_num [updateStep, handleTopBounce, handleBottomBounce, handleSideBounce]
  have h11 : updateStep ⟨1200, 22, 1, 0, 0⟩ ⟨600, 2, 0, -119/100, 0, 1, true⟩ =
      ⟨600, 21/20, 0, -19/20, 0, 1, true⟩ := by
    norm_num [updateStep, handleTopBounce, handleBottomBounce, handleSideBounce]
  have h12 : updateStep ⟨1200, 22, 1, 0, 0⟩ ⟨600, 21/20, 0, -19/20, 0, 1, true⟩ =
      ⟨600, 17/50, 0, -71/100, 0, 1, true⟩ := by
    norm_num [updateStep, handleTopBounce, handleBottomBounce, handleSideBounce]
  have h13 : updateStep ⟨1200, 22, 1, 0, 0⟩ ⟨600, 17/50, 0, -71/100, 0, 1, true⟩ =
      ⟨600, 0, 0, 329/2000, 0, 2, true⟩ := by
    norm_num [updateStep, handleTopBounce, handleBottomBounce, handleSideBounce]
  have e1 : (updateStep ⟨1200, 22, 1, 0, 0⟩)^[1]
      ⟨600, 22, 0, -63/10, 0, 0, false⟩ = ⟨600, 33/2, 0, -11/2, 0, 0, false⟩ := by
    rw [Function.iterate_one]
    exact h1
  have e2 : (updateStep ⟨1200, 22, 1, 0, 0⟩)^[2]
      ⟨600, 22, 0, -63/10, 0, 0, false⟩ = ⟨600, 59/5, 0, -47/10, 0, 0, false⟩ := by
    rw [show (2 : ℕ) = 1 + 1 from rfl, Function.iterate_succ_apply', e1]
    exact h2
  have e3 : (updateStep ⟨1200, 22, 1, 0, 0⟩)^[3]
      ⟨600, 22, 0, -63/10, 0, 0, false⟩ = ⟨600, 79/10, 0, -39/10, 0, 0, false⟩ := by
    rw [show (3 : ℕ) = 2 + 1 from rfl, Function.iterate_succ_apply', e2]
    exact h3
  have e4 : (updateStep ⟨1200, 22, 1, 0, 0⟩)^[4]
      ⟨600, 22, 0, -63/10, 0, 0, false⟩ = ⟨600, 24/5, 0, -31/10, 0, 0, false⟩ := by
    rw [show (4 : ℕ) = 3 + 1 from rfl, Function.iterate_succ_apply', e3]
    exact h4
  have e5 : (updateStep ⟨1200, 22, 1, 0, 0⟩)^[5]
      ⟨600, 22, 0, -63/10, 0, 0, false⟩ = ⟨600, 5/2, 0, -23/10, 0, 0, false⟩ := by
    rw [show (5 : ℕ) = 4 + 1 from rfl, Function.iterate_succ_apply', e4]
    exact h5
  have e6 : (updateStep ⟨1200, 22, 1, 0, 0⟩)^[6]
      ⟨600, 22, 0, -63/10, 0, 0, false⟩ = ⟨600, 1, 0, -3/2, 0, 0, false⟩ := by
    rw [show (6 : ℕ) = 5 + 1 from rfl, Function.iterate_succ_apply', e5]
    exact h6
  have e7 : (updateStep ⟨1200, 22, 1, 0, 0⟩)^[7]
      ⟨600, 22, 0, -63/10, 0, 0, false⟩ = ⟨600, 3/10, 0, -7/10, 0, 0, false⟩ := by
    rw [show (7 : ℕ) = 6 + 1 from rfl, Function.iterate_succ_apply', e6]
    exact h7
  have e8 : (updateStep ⟨1200, 22, 1, 0, 0⟩)^[8]
      ⟨600, 22, 0, -63/10, 0, 0, false⟩ = ⟨600, 2/5, 0, 1/10, 0, 0, false⟩ := by
    rw [show (8 : ℕ) = 7 + 1 from rfl, Function.iterate_succ_apply', e7]
    exact h8
  have e9 : (updateStep ⟨1200, 22, 1, 0, 0⟩)^[9]
      ⟨600, 22, 0, -63/10, 0, 0, false⟩ = ⟨600, 13/10, 0, 9/10, 0, 0, false⟩ := by
    rw [show (9 : ℕ) = 8 + 1 from rfl, Function.iterate_succ_apply', e8]
    exact h9
  have e10 : (updateStep ⟨1200, 22, 1, 0, 0⟩)^[10]
      ⟨600, 22, 0, -63/10, 0, 0, false⟩ = ⟨600, 2, 0, -119/100, 0, 1, true⟩ := by
    rw [show (10 : ℕ) = 9 + 1 from rfl, Function.iterate_succ_apply', e9]
    exact h10
  have e11 : (updateStep ⟨1200, 22, 1, 0, 0⟩)^[11]
      ⟨600, 22, 0, -63/10, 0, 0, false⟩ = ⟨600, 21/20, 0, -19/20, 0, 1, true⟩ := by
    rw [show (11 : ℕ) = 10 + 1 from rfl, Function.iterate_succ_apply', e10]
    exact h11
  have e12 : (updateStep ⟨1200, 22, 1, 0, 0⟩)^[12]
      ⟨600, 22, 0, -63/10, 0, 0, false⟩ = ⟨600, 17/50, 0, -71/100, 0, 1, true⟩ := by
    rw [show (12 : ℕ) = 11 + 1 from rfl, Function.iterate_succ_apply', e11]
    exact h12
  have e13 : (updateStep ⟨1200, 22, 1, 0, 0⟩)^[13]
      ⟨600, 22, 0, -63/10, 0, 0, false⟩ = ⟨600, 0, 0, 329/2000, 0, 2, true⟩ := by
    rw [show (13 : ℕ) = 12 + 1 from rfl, Function.iterate_succ_apply', e12]
    exact h13
  refine ⟨?_, ?_, ?_⟩
  · rw [e12]
  · rw [e12]
  · rw [e13]

end Confetti
